import Mathlib

/-!
Shallow embedding of the CASS-Volume-Analyst core (grid rasterizer and
grid-difference volume engine) and proofs about it.

Sources embedded:
* `src/types.ts` — data model (`Point3D`, `BoundaryPoint`, `GridData`,
  `VolumeResult`, `HeightDiffGrid`).
* `src/services/Gridifier.ts` — the live rasterizer (suffix `TS`).
* `src/unnamed/part_001` — the alternate rasterizer snapshot (suffix `P1`).
* `src/services/VolumeCalculator.ts` — the live volume engine (suffix `TS`).
* `src/unnamed/part_000` — the alternate volume engine snapshot (suffix `P0`).

Modelling conventions:
* JavaScript floating-point numbers are modelled as `ℚ` (exact arithmetic).
* `Math.floor` is `Int.floor`, `Math.ceil` is `Int.ceil`, and
  `Math.round x` is `round x` (`⌊x + 1/2⌋`, matching JS round-half-up).
* `Float32Array` becomes `List ℚ`; `arr[i]` becomes `List.getD` and
  `arr[i] = v` becomes `List.set` (out-of-range writes are no-ops, matching
  the guarded writes in the source).
* Thrown errors become `Except` error values (`GridError`, `VolumeError`).
* `Math.cos(-θ)`/`Math.sin(-θ)` in the volume engine's boundary transform
  are transcendental, so the embedding of `calculateFromGrids` takes the
  pair of values `cosA`/`sinA` as explicit parameters; they are only read
  when a boundary is supplied.
-/

namespace CASS

/-- `Point3D` from `src/types.ts`. -/
structure Point3D where
  x : ℚ
  y : ℚ
  z : ℚ
deriving DecidableEq

/-- `BoundaryPoint` from `src/types.ts` (the `id` string is irrelevant to the
numeric core and omitted). -/
structure BoundaryPoint where
  x : ℚ
  y : ℚ
deriving DecidableEq

/-- `GridData` from `src/types.ts`. -/
structure GridData where
  minX : ℚ
  minY : ℚ
  maxX : ℚ
  maxY : ℚ
  rows : ℕ
  cols : ℕ
  gridSize : ℚ
  heights : List ℚ
  rotationAngle : ℚ
  anchor : Point3D
deriving DecidableEq

/-- `HeightDiffGrid` from `src/types.ts`. -/
structure HeightDiffGrid where
  minX : ℚ
  minY : ℚ
  maxX : ℚ
  maxY : ℚ
  rows : ℕ
  cols : ℕ
  data : List ℚ
deriving DecidableEq

/-- `VolumeResult` from `src/types.ts`. -/
structure VolumeResult where
  cutVolume : ℚ
  fillVolume : ℚ
  netVolume : ℚ
  area : ℚ
  gridSize : ℚ
  diffMap : HeightDiffGrid
deriving DecidableEq

/-- The `NO_DATA` sentinel (`-1000000`) used throughout the sources. -/
def ND : ℚ := -1000000

/-- Rasterization error kinds (§7 of the design): `NoDataError` and
`GridTooLargeError`, thrown by `Gridifier.processFoldersToGrid`. -/
inductive GridError where
  | noData
  | gridTooLarge
deriving DecidableEq

/-- Volume-engine error kinds (§7): `NotRasterizedError` (thrown by
`VolumeCalculator.calculate`) and `NoOverlapError` (thrown by the `part_000`
`calculateFromGrids`). -/
inductive VolumeError where
  | notRasterized
  | noOverlap
deriving DecidableEq

/-! ### Grid rasterizer: pass-1 extent scan

Both `src/services/Gridifier.ts` and `src/unnamed/part_001` compute the
bounding box of all vertices (shifted by `origin`) across all files
(`streamScanBounds` plus the combining loop in `processFoldersToGrid`).
The `Infinity` initial bounds are modelled with `Option`: `none` means
"no vertex seen yet", which is exactly the `minX === Infinity` check. -/

/-- Running bounding box of pass 1. -/
structure Bounds where
  minX : ℚ
  minY : ℚ
  maxX : ℚ
  maxY : ℚ
deriving DecidableEq

/-- Extend the running bounds by one vertex (the body of `streamScanBounds`). -/
def extendBounds (origin : Point3D) (b : Option Bounds) (v : Point3D) : Option Bounds :=
  let x := v.x + origin.x
  let y := v.y + origin.y
  match b with
  | none => some ⟨x, y, x, y⟩
  | some b => some ⟨min b.minX x, min b.minY y, max b.maxX x, max b.maxY y⟩

/-- Pass 1 over every vertex of every file (`streamScanBounds` folded over the
file list in `processFoldersToGrid`). -/
def scanBounds (origin : Point3D) (files : List (List Point3D)) : Option Bounds :=
  files.foldl (fun b f => f.foldl (extendBounds origin) b) none

/-! ### Grid rasterizer: pass-2 binning -/

/-- The cell-index computation of the services binning pass
(`src/services/Gridifier.ts`, `streamPopulateGrid`):
`Math.round((coord - min) / gridSize)`, used for both the column and the
row direction. -/
def binIdxTS (minV gridSize coord : ℚ) : ℤ :=
  round ((coord - minV) / gridSize)

/-- The cell-index computation of the `part_001` binning pass:
`Math.floor((coord - min) / gridSize)`, used for both directions. -/
def binIdxP1 (minV gridSize coord : ℚ) : ℤ :=
  ⌊(coord - minV) / gridSize⌋

/-- One vertex record of pass 2 in `src/services/Gridifier.ts`
(`streamPopulateGrid`): cell indices via `Math.round`, keep the maximum `z`
per cell. -/
def popStepTS (minX minY : ℚ) (cols rows : ℕ) (gridSize : ℚ) (origin : Point3D)
    (grid : List ℚ) (v : Point3D) : List ℚ :=
  let x := v.x + origin.x
  let y := v.y + origin.y
  let z := v.z + origin.z
  let c := binIdxTS minX gridSize x
  let r := binIdxTS minY gridSize y
  if 0 ≤ r ∧ r < (rows : ℤ) ∧ 0 ≤ c ∧ c < (cols : ℤ) then
    let idx := r.toNat * cols + c.toNat
    if z > grid.getD idx 0 then grid.set idx z else grid
  else grid

/-- `Gridifier.streamPopulateGrid` of `src/services/Gridifier.ts` for one
file: fold the per-vertex step over the file's vertex list. -/
def populateGridTS (minX minY : ℚ) (cols rows : ℕ) (gridSize : ℚ) (origin : Point3D)
    (grid : List ℚ) (verts : List Point3D) : List ℚ :=
  verts.foldl (popStepTS minX minY cols rows gridSize origin) grid

/-- One vertex record of pass 2 in `src/unnamed/part_001`: identical to the
services variant except the cell indices use `Math.floor`. -/
def popStepP1 (minX minY : ℚ) (cols rows : ℕ) (gridSize : ℚ) (origin : Point3D)
    (grid : List ℚ) (v : Point3D) : List ℚ :=
  let x := v.x + origin.x
  let y := v.y + origin.y
  let z := v.z + origin.z
  let c := binIdxP1 minX gridSize x
  let r := binIdxP1 minY gridSize y
  if 0 ≤ r ∧ r < (rows : ℤ) ∧ 0 ≤ c ∧ c < (cols : ℤ) then
    let idx := r.toNat * cols + c.toNat
    if z > grid.getD idx 0 then grid.set idx z else grid
  else grid

/-- `Gridifier.streamPopulateGrid` of `src/unnamed/part_001`. -/
def populateGridP1 (minX minY : ℚ) (cols rows : ℕ) (gridSize : ℚ) (origin : Point3D)
    (grid : List ℚ) (verts : List Point3D) : List ℚ :=
  verts.foldl (popStepP1 minX minY cols rows gridSize origin) grid

/-! ### Grid rasterizer: hole filling -/

/-- The 8 neighbour offsets of the services `fillHoles` (the `dr`/`dc` double
loop with the `dr === 0 && dc === 0` pair skipped), in loop order. -/
def offsets8 : List (ℤ × ℤ) :=
  [(-1, -1), (-1, 0), (-1, 1), (0, -1), (0, 1), (1, -1), (1, 0), (1, 1)]

/-- The 9 offsets of the `part_001` `fillHoles` (its double loop does not
skip the centre pair), in loop order. -/
def offsets9 : List (ℤ × ℤ) :=
  [(-1, -1), (-1, 0), (-1, 1), (0, -1), (0, 0), (0, 1), (1, -1), (1, 0), (1, 1)]

/-- Neighbour accumulation of the services `fillHoles`: sum and count of the
valid (`!== NO_DATA`) values among the bounds-checked 8-neighbourhood of
cell `(r, c)`, read from `grid`. -/
def neighborSumTS (grid : List ℚ) (rows cols : ℕ) (r c : ℕ) : ℚ × ℕ :=
  offsets8.foldl
    (fun acc d =>
      let nr := (r : ℤ) + d.1
      let nc := (c : ℤ) + d.2
      if 0 ≤ nr ∧ nr < (rows : ℤ) ∧ 0 ≤ nc ∧ nc < (cols : ℤ) then
        let nVal := grid.getD (nr.toNat * cols + nc.toNat) 0
        if nVal ≠ ND then (acc.1 + nVal, acc.2 + 1) else acc
      else acc)
    (0, 0)

/-- One cell of a services `fillHoles` pass: if the read buffer holds
`NO_DATA` at `(r, c)` and at least 2 neighbours are valid, write the
neighbour average into the write buffer `copy`. -/
def fillCellTS (grid : List ℚ) (rows cols : ℕ) (copy : List ℚ) (rc : ℕ × ℕ) : List ℚ :=
  let idx := rc.1 * cols + rc.2
  if grid.getD idx 0 ≠ ND then copy
  else
    let sc := neighborSumTS grid rows cols rc.1 rc.2
    if sc.2 ≥ 2 then copy.set idx (sc.1 / (sc.2 : ℚ)) else copy

/-- Row-major list of all cells, as iterated by the services `fillHoles`
(`r` from `0` to `rows-1`, `c` from `0` to `cols-1`). -/
def allCells (rows cols : ℕ) : List (ℕ × ℕ) :=
  (List.range rows).flatMap (fun r => (List.range cols).map (fun c => (r, c)))

/-- One full pass of the services `fillHoles`: read from `grid`, write into
`copy`. -/
def fillPassTS (grid : List ℚ) (rows cols : ℕ) (copy : List ℚ) : List ℚ :=
  (allCells rows cols).foldl (fillCellTS grid rows cols) copy

/-- `Gridifier.fillHoles` of `src/services/Gridifier.ts`: the copy buffer is
cloned once, two passes run, and `grid.set(copy)` after each pass makes the
next pass read the previous pass's result. -/
def fillHolesTS (grid : List ℚ) (rows cols : ℕ) : List ℚ :=
  let copy1 := fillPassTS grid rows cols grid
  fillPassTS copy1 rows cols copy1

/-- Neighbour accumulation of the `part_001` `fillHoles`: the 3×3 block
around an interior cell `(r, c)` is read without bounds checks (all nine
cells, including the centre). -/
def neighborSumP1 (grid : List ℚ) (cols : ℕ) (r c : ℕ) : ℚ × ℕ :=
  offsets9.foldl
    (fun acc d =>
      let nr := ((r : ℤ) + d.1).toNat
      let nc := ((c : ℤ) + d.2).toNat
      let val := grid.getD (nr * cols + nc) 0
      if val ≠ ND then (acc.1 + val, acc.2 + 1) else acc)
    (0, 0)

/-- One cell of the `part_001` `fillHoles` pass (minimum neighbour count 3). -/
def fillCellP1 (grid : List ℚ) (cols : ℕ) (copy : List ℚ) (rc : ℕ × ℕ) : List ℚ :=
  let idx := rc.1 * cols + rc.2
  if grid.getD idx 0 ≠ ND then copy
  else
    let sc := neighborSumP1 grid cols rc.1 rc.2
    if sc.2 ≥ 3 then copy.set idx (sc.1 / (sc.2 : ℚ)) else copy

/-- Row-major list of the interior cells iterated by the `part_001`
`fillHoles` (`r` from `1` to `rows-2`, `c` from `1` to `cols-2`). -/
def interiorCells (rows cols : ℕ) : List (ℕ × ℕ) :=
  (List.Ico 1 (rows - 1)).flatMap (fun r => (List.Ico 1 (cols - 1)).map (fun c => (r, c)))

/-- `Gridifier.fillHoles` of `src/unnamed/part_001`: a single pass over the
interior cells. -/
def fillHolesP1 (grid : List ℚ) (rows cols : ℕ) : List ℚ :=
  (interiorCells rows cols).foldl (fillCellP1 grid cols) grid

/-! ### Grid rasterizer: top-level `processFoldersToGrid` -/

/-- `Gridifier.processFoldersToGrid` of `src/services/Gridifier.ts`:
pass-1 bounds, `cols/rows = ceil(extent/gridSize) + 1`, the 5,000,000-cell
ceiling checked before the heights array exists, pass-2 binning per file,
then hole filling.  The source returns an object without `rotationAngle`
and `anchor`; the embedding fills them with `0` and the zero point. -/
def processFoldersToGridTS (files : List (List Point3D)) (origin : Point3D)
    (gridSize : ℚ) : Except GridError GridData :=
  match scanBounds origin files with
  | none => .error .noData
  | some b =>
    let cols := (⌈(b.maxX - b.minX) / gridSize⌉ + 1).toNat
    let rows := (⌈(b.maxY - b.minY) / gridSize⌉ + 1).toNat
    if cols * rows > 5000000 then .error .gridTooLarge
    else
      let heights0 := List.replicate (rows * cols) ND
      let heights1 :=
        files.foldl (fun h f => populateGridTS b.minX b.minY cols rows gridSize origin h f)
          heights0
      let heights2 := fillHolesTS heights1 rows cols
      .ok ⟨b.minX, b.minY, b.maxX, b.maxY, rows, cols, gridSize, heights2, 0, ⟨0, 0, 0⟩⟩

/-! ### Volume engine (`src/services/VolumeCalculator.ts`) -/

/-- The 2-vector used by the services volume engine for clipping. -/
structure Vec2 where
  x : ℚ
  y : ℚ
deriving DecidableEq

/-- `VolumeCalculator.isInsideEdge`: the left-of-halfplane test. -/
def isInsideEdge (p s e : Vec2) : Prop :=
  (e.x - s.x) * (p.y - s.y) - (e.y - s.y) * (p.x - s.x) ≥ 0

instance (p s e : Vec2) : Decidable (isInsideEdge p s e) := by
  unfold isInsideEdge; infer_instance

/-- `VolumeCalculator.getIntersection`: homogeneous-coordinate line-line
intersection (the `1.0 / cross` of the source is total `ℚ` division). -/
def getIntersection (s e start stop : Vec2) : Vec2 :=
  let dcx := start.x - stop.x
  let dcy := start.y - stop.y
  let dpx := s.x - e.x
  let dpy := s.y - e.y
  let n1 := start.x * stop.y - start.y * stop.x
  let n2 := s.x * e.y - s.y * e.x
  let n3 := 1 / (dcx * dpy - dcy * dpx)
  ⟨(n1 * dpx - n2 * dcx) * n3, (n1 * dpy - n2 * dcy) * n3⟩

/-- The inner loop of `VolumeCalculator.clipPolygon` for one clip edge:
walk the input polygon with `s` starting at its last vertex. -/
def clipAgainstEdge (input : List Vec2) (cs ce : Vec2) : List Vec2 :=
  match input with
  | [] => []
  | p :: ps =>
    ((p :: ps).foldl
      (fun (acc : List Vec2 × Vec2) e =>
        let out := acc.1
        let s := acc.2
        let out2 :=
          if isInsideEdge e cs ce then
            if isInsideEdge s cs ce then out ++ [e]
            else out ++ [getIntersection s e cs ce, e]
          else if isInsideEdge s cs ce then out ++ [getIntersection s e cs ce]
          else out
        (out2, e))
      ([], (p :: ps).getLast (by simp))).1

/-- The clip edges `(clip[j], clip[(j+1) % clip.length])` in loop order. -/
def clipEdges (clip : List Vec2) : List (Vec2 × Vec2) :=
  clip.zip (clip.drop 1 ++ clip.take 1)

/-- `VolumeCalculator.clipPolygon` (Sutherland–Hodgman): fold over the clip
edges; the `input.length === 0` break keeps an empty polygon empty. -/
def clipPolygon (subject clip : List Vec2) : List Vec2 :=
  (clipEdges clip).foldl
    (fun out e => match out with | [] => [] | p :: ps => clipAgainstEdge (p :: ps) e.1 e.2)
    subject

/-- `VolumeCalculator.getPolygonArea`: shoelace formula, absolute value. -/
def getPolygonArea (poly : List Vec2) : ℚ :=
  |(List.range poly.length).foldl
      (fun a i =>
        let p := poly.getD i ⟨0, 0⟩
        let q := poly.getD ((i + 1) % poly.length) ⟨0, 0⟩
        a + (p.x * q.y - q.x * p.y))
      0| / 2

/-- `VolumeCalculator.getHeightFromLocalGrid` of
`src/services/VolumeCalculator.ts`: floor the local coordinate to a cell
index, return the stored height when the index is in range and `-1000000`
otherwise. -/
def getHeightFromLocalGrid (grid : GridData) (lx ly : ℚ) : ℚ :=
  let c := ⌊(lx - grid.minX) / grid.gridSize⌋
  let r := ⌊(ly - grid.minY) / grid.gridSize⌋
  if 0 ≤ r ∧ r < (grid.rows : ℤ) ∧ 0 ≤ c ∧ c < (grid.cols : ℤ) then
    grid.heights.getD (r.toNat * grid.cols + c.toNat) 0
  else -1000000

/-- Accumulator of the volume loops (`cutVolume`, `fillVolume`, `totalArea`,
`diffData`). -/
structure VolState where
  cut : ℚ
  fill : ℚ
  area : ℚ
  diffData : List ℚ
deriving DecidableEq

/-- One cell of the services volume loop
(`src/services/VolumeCalculator.ts`, `calculateFromGrids`): clip the cell
square against the local boundary (full cell area when no boundary), skip
near-zero areas, look both heights up at the cell centre, skip `NO_DATA`,
then accumulate `fill` for positive `diff` and `cut` otherwise. -/
def cellStepTS (grid1 grid2 : GridData) (localBoundary : List Vec2)
    (minX minY gridSize : ℚ) (cols : ℕ) (st : VolState) (rc : ℕ × ℕ) : VolState :=
  let lx := minX + rc.2 * gridSize
  let ly := minY + rc.1 * gridSize
  let cellRect : List Vec2 :=
    [⟨lx, ly⟩, ⟨lx + gridSize, ly⟩, ⟨lx + gridSize, ly + gridSize⟩, ⟨lx, ly + gridSize⟩]
  let effectiveArea :=
    if localBoundary = [] then gridSize * gridSize
    else getPolygonArea (clipPolygon cellRect localBoundary)
  if effectiveArea ≤ 1 / 10000 then st
  else
    let h1 := getHeightFromLocalGrid grid1 (lx + gridSize / 2) (ly + gridSize / 2)
    let h2 := getHeightFromLocalGrid grid2 (lx + gridSize / 2) (ly + gridSize / 2)
    if h1 ≤ ND ∨ h2 ≤ ND then st
    else
      let diff := h2 - h1
      { cut := if diff > 0 then st.cut else st.cut + |diff| * effectiveArea
        fill := if diff > 0 then st.fill + diff * effectiveArea else st.fill
        area := st.area + effectiveArea
        diffData := st.diffData.set (rc.1 * cols + rc.2) diff }

/-- `VolumeCalculator.calculateFromGrids` of
`src/services/VolumeCalculator.ts`.  `cosA`/`sinA` stand for
`Math.cos(-grid1.rotationAngle)` / `Math.sin(-grid1.rotationAngle)`; they
are used only to map the boundary into the local frame.  Note the source
performs no overlap check: it always returns a `VolumeResult`. -/
def calculateFromGridsTS (cosA sinA : ℚ) (grid1 grid2 : GridData)
    (boundary : Option (List BoundaryPoint)) : VolumeResult :=
  let minX := max grid1.minX grid2.minX
  let minY := max grid1.minY grid2.minY
  let maxX := min grid1.maxX grid2.maxX
  let maxY := min grid1.maxY grid2.maxY
  let gridSize := grid1.gridSize
  let cols := (⌈(maxX - minX) / gridSize⌉).toNat
  let rows := (⌈(maxY - minY) / gridSize⌉).toNat
  let localBoundary : List Vec2 :=
    match boundary with
    | none => []
    | some b =>
      b.map (fun p =>
        ⟨(p.x - grid1.anchor.x) * cosA - (p.y - grid1.anchor.y) * sinA,
         (p.x - grid1.anchor.x) * sinA + (p.y - grid1.anchor.y) * cosA⟩)
  let st :=
    (allCells rows cols).foldl
      (cellStepTS grid1 grid2 localBoundary minX minY gridSize cols)
      ⟨0, 0, 0, List.replicate (rows * cols) 0⟩
  { cutVolume := st.cut
    fillVolume := st.fill
    netVolume := st.fill - st.cut
    area := st.area
    gridSize := gridSize
    diffMap := ⟨minX, minY, maxX, maxY, rows, cols, st.diffData⟩ }

/-! ### Volume engine (`src/unnamed/part_000`) -/

/-- One edge term of `VolumeCalculator.isPointInPoly` of
`src/unnamed/part_000`: the parity test `(yi > y) !== (yj > y)` guards the
division by `yj - yi`. -/
def edgeCross (x y xi yi xj yj : ℚ) : Bool :=
  (decide (yi > y) != decide (yj > y)) &&
    decide (x < (xj - xi) * (y - yi) / (yj - yi) + xi)

/-- The edge pairs `(poly[i], poly[j])` walked by `isPointInPoly`
(`j = i-1`, with `j = poly.length - 1` for `i = 0`). -/
def polyEdges (poly : List BoundaryPoint) : List (BoundaryPoint × BoundaryPoint) :=
  match poly with
  | [] => []
  | p :: ps => (p :: ps).zip ((p :: ps).getLast (by simp) :: (p :: ps).dropLast)

/-- `VolumeCalculator.isPointInPoly` of `src/unnamed/part_000`:
ray-casting parity over the polygon edges. -/
def isPointInPoly (x y : ℚ) (poly : List BoundaryPoint) : Bool :=
  (polyEdges poly).foldl
    (fun inside e =>
      if edgeCross x y e.1.x e.1.y e.2.x e.2.y then !inside else inside)
    false

/-- A division-checked variant of one edge term: `none` when the division by
`yj - yi` would be evaluated with a zero denominator. -/
def edgeCrossChecked (x y xi yi xj yj : ℚ) : Option Bool :=
  if decide (yi > y) != decide (yj > y) then
    if yj - yi = 0 then none
    else some (decide (x < (xj - xi) * (y - yi) / (yj - yi) + xi))
  else some false

/-- Division-checked variant of `isPointInPoly`: propagates `none` whenever
any edge term would divide by zero. -/
def isPointInPolyChecked (x y : ℚ) (poly : List BoundaryPoint) : Option Bool :=
  (polyEdges poly).foldl
    (fun acc e =>
      acc.bind (fun inside =>
        (edgeCrossChecked x y e.1.x e.1.y e.2.x e.2.y).map
          (fun b => if b then !inside else inside)))
    (some false)

/-- `VolumeCalculator.getHeightWithFallback` of `src/unnamed/part_000`:
round the coordinate to a cell index; if the bin is `NO_DATA`, return the
first valid value of the 3×3 neighbourhood in loop order. -/
def getHeightWithFallback (grid : GridData) (x y : ℚ) : ℚ :=
  let c := round ((x - grid.minX) / grid.gridSize)
  let r := round ((y - grid.minY) / grid.gridSize)
  if 0 ≤ r ∧ r < (grid.rows : ℤ) ∧ 0 ≤ c ∧ c < (grid.cols : ℤ) then
    let val := grid.heights.getD (r.toNat * grid.cols + c.toNat) 0
    if val ≠ ND then val
    else
      match offsets9.findSome? (fun d =>
        let nr := r + d.1
        let nc := c + d.2
        if 0 ≤ nr ∧ nr < (grid.rows : ℤ) ∧ 0 ≤ nc ∧ nc < (grid.cols : ℤ) then
          let nVal := grid.heights.getD (nr.toNat * grid.cols + nc.toNat) 0
          if nVal ≠ ND then some nVal else none
        else none) with
      | some v => v
      | none => ND
  else ND

/-- One cell of the `part_000` volume loop: point-in-polygon boundary check
at the cell's reference corner, `NO_DATA` skip (exact equality in this
variant), full-cell-area weighting. -/
def cellStepP0 (grid1 grid2 : GridData) (boundary : Option (List BoundaryPoint))
    (minX minY gridSize : ℚ) (cols : ℕ) (st : VolState) (rc : ℕ × ℕ) : VolState :=
  let x := minX + rc.2 * gridSize
  let y := minY + rc.1 * gridSize
  if (match boundary with
      | some b => !isPointInPoly x y b
      | none => false) then st
  else
    let h1 := getHeightWithFallback grid1 x y
    let h2 := getHeightWithFallback grid2 x y
    if h1 = ND ∨ h2 = ND then st
    else
      let diff := h2 - h1
      let cellArea := gridSize * gridSize
      { cut := if diff > 0 then st.cut else st.cut + |diff| * cellArea
        fill := if diff > 0 then st.fill + diff * cellArea else st.fill
        area := st.area + cellArea
        diffData := st.diffData.set (rc.1 * cols + rc.2) diff }

/-- `VolumeCalculator.calculateFromGrids` of `src/unnamed/part_000`: this
variant throws `NoOverlapError` when the extent intersection is empty or
degenerate (`maxX ≤ minX || maxY ≤ minY`) before any further work. -/
def calculateFromGridsP0 (grid1 grid2 : GridData)
    (boundary : Option (List BoundaryPoint)) : Except VolumeError VolumeResult :=
  let minX := max grid1.minX grid2.minX
  let minY := max grid1.minY grid2.minY
  let maxX := min grid1.maxX grid2.maxX
  let maxY := min grid1.maxY grid2.maxY
  if maxX ≤ minX ∨ maxY ≤ minY then .error .noOverlap
  else
    let gridSize := grid1.gridSize
    let cols := (⌈(maxX - minX) / gridSize⌉).toNat
    let rows := (⌈(maxY - minY) / gridSize⌉).toNat
    let st :=
      (allCells rows cols).foldl
        (cellStepP0 grid1 grid2 boundary minX minY gridSize cols)
        ⟨0, 0, 0, List.replicate (rows * cols) 0⟩
    .ok
      { cutVolume := st.cut
        fillVolume := st.fill
        netVolume := st.fill - st.cut
        area := st.area
        gridSize := gridSize
        diffMap := ⟨minX, minY, maxX, maxY, rows, cols, st.diffData⟩ }

end CASS

namespace CASS

/-! ### List helper lemmas -/

lemma getD_set_of_ne (l : List ℚ) (i j : ℕ) (v d : ℚ) (h : i ≠ j) :
    (l.set i v).getD j d = l.getD j d := by
  simp [List.getD, List.getElem?_set_ne h]

lemma getD_set_self_of_lt (l : List ℚ) (i : ℕ) (v d : ℚ) (h : i < l.length) :
    (l.set i v).getD i d = v := by
  simp [List.getD, List.getElem?_set_self, h]

lemma set_getD_self (l : List ℚ) (i : ℕ) : l.set i (l.getD i 0) = l := by
  induction l generalizing i with
  | nil => rfl
  | cons a t ih =>
    cases i with
    | zero => simp [List.getD]
    | succ n => simpa [List.getD] using ih n

lemma foldl_getD_preserve {α : Type} (f : List ℚ → α → List ℚ) (l : List α)
    (b : List ℚ) (idx : ℕ)
    (h : ∀ cp a, a ∈ l → (f cp a).getD idx 0 = cp.getD idx 0) :
    (l.foldl f b).getD idx 0 = b.getD idx 0 := by
  induction l generalizing b with
  | nil => rfl
  | cons a t ih =>
    rw [List.foldl_cons, ih (f b a) (fun cp x hx => h cp x (List.mem_cons_of_mem a hx)),
      h b a (List.mem_cons_self a t)]

lemma cell_index_inj {r c q p cols : ℕ} (hc : c < cols) (hp : p < cols)
    (h : r * cols + c = q * cols + p) : r = q ∧ c = p := by
  have hrq : r = q := by
    rcases Nat.lt_trichotomy r q with hlt | heq | hgt
    · nlinarith [Nat.mul_le_mul_right cols (Nat.succ_le_of_lt hlt)]
    · exact heq
    · nlinarith [Nat.mul_le_mul_right cols (Nat.succ_le_of_lt hgt)]
  subst hrq
  exact ⟨rfl, by omega⟩

lemma cell_index_lt {r c rows cols : ℕ} (hr : r < rows) (hc : c < cols) :
    r * cols + c < rows * cols := by
  calc r * cols + c < r * cols + cols := by omega
    _ = (r + 1) * cols := by ring
    _ ≤ rows * cols := Nat.mul_le_mul_right cols (Nat.succ_le_of_lt hr)

/-! ### C9: the point-in-polygon parity guard protects the division -/

lemma edgeCrossChecked_eq (x y xi yi xj yj : ℚ) :
    edgeCrossChecked x y xi yi xj yj = some (edgeCross x y xi yi xj yj) := by
  unfold edgeCrossChecked edgeCross
  by_cases hg : decide (yi > y) != decide (yj > y)
  · have hne : yj - yi ≠ 0 := by
      rcases le_or_lt yi y with h1 | h1
      · rcases le_or_lt yj y with h2 | h2
        · exfalso
          simp [not_lt.mpr h1, not_lt.mpr h2] at hg
        · have : yi ≤ y := h1
          intro hz
          have : yj = yi := by linarith [sub_eq_zero.mp hz]
          linarith
      · rcases le_or_lt yj y with h2 | h2
        · intro hz
          have : yj = yi := sub_eq_zero.mp hz
          linarith
        · exfalso
          simp [h1, h2] at hg
    simp [hg, hne]
  · simp [hg]

/-- C9: `isPointInPoly` (src/unnamed/part_000, `VolumeCalculator.isPointInPoly`)
never divides by zero and is total: the division-checked variant, which
returns `none` whenever the division by `yj - yi` would be evaluated with a
zero denominator, always returns `some` of the unchecked function's boolean,
because the parity test `(yi > y) !== (yj > y)` guarding the division forces
`yi ≠ yj`. -/
lemma isPointInPolyChecked_fold (x y : ℚ) (es : List (BoundaryPoint × BoundaryPoint)) :
    ∀ b : Bool,
      es.foldl
        (fun acc e =>
          acc.bind (fun inside =>
            (edgeCrossChecked x y e.1.x e.1.y e.2.x e.2.y).map
              (fun b => if b then !inside else inside)))
        (some b)
        = some (es.foldl
            (fun inside e =>
              if edgeCross x y e.1.x e.1.y e.2.x e.2.y then !inside else inside)
            b) := by
  induction es with
  | nil => intro b; rfl
  | cons e t ih =>
    intro b
    rw [List.foldl_cons, List.foldl_cons]
    have hstep :
        ((some b).bind (fun inside =>
          (edgeCrossChecked x y e.1.x e.1.y e.2.x e.2.y).map
            (fun b => if b then !inside else inside)))
          = some (if edgeCross x y e.1.x e.1.y e.2.x e.2.y then !b else b) := by
      rw [edgeCrossChecked_eq]
      rfl
    rw [hstep]
    exact ih _

theorem isPointInPoly_never_divides_by_zero (x y : ℚ) (poly : List BoundaryPoint) :
    isPointInPolyChecked x y poly = some (isPointInPoly x y poly) := by
  unfold isPointInPolyChecked isPointInPoly
  exact isPointInPolyChecked_fold x y (polyEdges poly) false

/-! ### C1: the NoOverlapError check -/

/-- C1 (amended): the `part_000` volume engine
(`VolumeCalculator.calculateFromGrids`, src/unnamed/part_000) raises
`NoOverlapError` whenever the extent intersection is empty or degenerate
(`maxX ≤ minX` or `maxY ≤ minY`), returning no `VolumeResult`.  (The live
engine in src/services/VolumeCalculator.ts performs no such check, see the
counterexample.) -/
theorem calculateFromGridsP0_degenerate_overlap (grid1 grid2 : GridData)
    (boundary : Option (List BoundaryPoint))
    (h : min grid1.maxX grid2.maxX ≤ max grid1.minX grid2.minX ∨
         min grid1.maxY grid2.maxY ≤ max grid1.minY grid2.minY) :
    calculateFromGridsP0 grid1 grid2 boundary = .error .noOverlap := by
  unfold calculateFromGridsP0
  rw [if_pos h]

/-- Witness for C1: two concrete grids with disjoint extents
(`[0,1]×[0,1]` and `[2,3]×[0,1]`) make the `part_000` engine fail with
`NoOverlapError`. -/
theorem calculateFromGridsP0_degenerate_overlap_witness :
    calculateFromGridsP0
      ⟨0, 0, 1, 1, 1, 1, 1, [5], 0, ⟨0, 0, 0⟩⟩
      ⟨2, 0, 3, 1, 1, 1, 1, [5], 0, ⟨0, 0, 0⟩⟩ none = .error .noOverlap :=
  calculateFromGridsP0_degenerate_overlap _ _ _ (Or.inl (by norm_num))

end CASS

namespace CASS

/-! ### C6: the cell-count ceiling is checked before allocation -/

/-- C6: whenever the pass-1 bounds yield `cols * rows` above the 5,000,000
cell ceiling, `Gridifier.processFoldersToGrid` (src/services/Gridifier.ts)
fails with `GridTooLargeError`; the error is produced before the dense
heights array is built (in the embedding the error branch precedes and
never constructs the `heights` list). -/
theorem processFoldersToGridTS_too_large (files : List (List Point3D))
    (origin : Point3D) (gridSize : ℚ) (b : Bounds)
    (hb : scanBounds origin files = some b)
    (hbig : (⌈(b.maxX - b.minX) / gridSize⌉ + 1).toNat *
        (⌈(b.maxY - b.minY) / gridSize⌉ + 1).toNat > 5000000) :
    processFoldersToGridTS files origin gridSize = .error .gridTooLarge := by
  unfold processFoldersToGridTS
  rw [hb]
  simp only
  rw [if_pos hbig]

/-- Witness for C6: one file holding vertices `(0,0,0)` and `(3000,3000,0)`
with `gridSize = 1` yields a 3001×3001 ≈ 9·10⁶-cell grid, above the
ceiling, so rasterization fails with `GridTooLargeError`. -/
theorem processFoldersToGridTS_too_large_witness :
    processFoldersToGridTS [[⟨0, 0, 0⟩, ⟨3000, 3000, 0⟩]] ⟨0, 0, 0⟩ 1 =
      .error .gridTooLarge :=
  processFoldersToGridTS_too_large _ _ _ ⟨0, 0, 3000, 3000⟩
    (by norm_num [scanBounds, extendBounds, min_def, max_def])
    (by norm_num
        decide)

/-! ### C3: floor- versus round-based binning indices -/

/-- C3 (amended): in the `part_001` rasterizer the binning index is
`floor((coord - min)/gridSize)` in both directions, i.e. cell `k` receives
exactly the coordinates of the half-open interval
`[min + k·gridSize, min + (k+1)·gridSize)`.  (The live rasterizer in
src/services/Gridifier.ts uses `Math.round` instead, see the
counterexample.) -/
theorem binIdxP1_floor_interval (minV gridSize coord : ℚ) (k : ℤ)
    (hg : 0 < gridSize) :
    binIdxP1 minV gridSize coord = k ↔
      minV + k * gridSize ≤ coord ∧ coord < minV + (k + 1) * gridSize := by
  unfold binIdxP1
  rw [Int.floor_eq_iff]
  constructor
  · rintro ⟨h1, h2⟩
    rw [le_div_iff hg] at h1
    rw [div_lt_iff hg] at h2
    push_cast at h1 h2 ⊢
    constructor <;> linarith
  · rintro ⟨h1, h2⟩
    constructor
    · rw [le_div_iff hg]
      push_cast
      linarith
    · rw [div_lt_iff hg]
      push_cast
      linarith

/-- Witness for C3: with `min = 0`, `gridSize = 1` the `part_001` index of
coordinate `3/5` is cell `0`, whose interval `[0, 1)` contains `3/5`. -/
theorem binIdxP1_floor_interval_witness : binIdxP1 0 1 (3 / 5) = 0 :=
  (binIdxP1_floor_interval 0 1 (3 / 5) 0 (by norm_num)).mpr (by norm_num)

/-- Counterexample for C3: the live binning pass
(`src/services/Gridifier.ts`, `streamPopulateGrid`) places a vertex with
local coordinate `3/5` into cell 1 (`Math.round`), although
`floor((3/5 - 0)/1) = 0`: the target indices are not computed with floor. -/
theorem populateGridTS_round_not_floor_counterexample :
    populateGridTS 0 0 2 1 1 ⟨0, 0, 0⟩ [ND, ND] [⟨3 / 5, 0, 7⟩] = [ND, 7]
    ∧ ⌊((3 / 5 : ℚ) + 0 - 0) / 1⌋ = 0 := by
  constructor
  · norm_num [populateGridTS, popStepTS, binIdxTS, ND, round_eq, Int.floor_eq_iff]
  · norm_num [Int.floor_eq_iff]

end CASS

namespace CASS

/-! ### C8: identical grids give zero cut, fill and net volume -/

lemma cellStepTS_same_grid (grid : GridData) (mnX mnY gs : ℚ) (cols : ℕ)
    (st : VolState) (rc : ℕ × ℕ) :
    (cellStepTS grid grid [] mnX mnY gs cols st rc).cut = st.cut ∧
    (cellStepTS grid grid [] mnX mnY gs cols st rc).fill = st.fill := by
  unfold cellStepTS
  simp only [reduceIte]
  split_ifs with hA hnd hd
  · exact ⟨rfl, rfl⟩
  · exact ⟨rfl, rfl⟩
  · constructor <;> simp
  · constructor <;> simp

lemma volFoldTS_same_grid (grid : GridData) (mnX mnY gs : ℚ) (cols : ℕ)
    (cells : List (ℕ × ℕ)) :
    ∀ st : VolState,
      (cells.foldl (cellStepTS grid grid [] mnX mnY gs cols) st).cut = st.cut ∧
      (cells.foldl (cellStepTS grid grid [] mnX mnY gs cols) st).fill = st.fill := by
  induction cells with
  | nil => exact fun st => ⟨rfl, rfl⟩
  | cons a t ih =>
    intro st
    rw [List.foldl_cons]
    rcases ih (cellStepTS grid grid [] mnX mnY gs cols st a) with ⟨h1, h2⟩
    rcases cellStepTS_same_grid grid mnX mnY gs cols st a with ⟨g1, g2⟩
    exact ⟨h1.trans g1, h2.trans g2⟩

/-- C8: `VolumeCalculator.calculateFromGrids`
(src/services/VolumeCalculator.ts) on two identical grids with no boundary
returns `cutVolume = 0`, `fillVolume = 0` and `netVolume = 0` — every
overlap cell has `diff = h - h = 0`, which the `diff > 0` branch adds to
`cutVolume` as `|0|·area = 0`.  (`0 < gridSize` is the validity condition
every rasterizer-produced grid satisfies; the JS code would divide by zero
otherwise.) -/
theorem calculateFromGridsTS_identical_zero (cosA sinA : ℚ) (grid : GridData)
    (hg : 0 < grid.gridSize) :
    (calculateFromGridsTS cosA sinA grid grid none).cutVolume = 0 ∧
    (calculateFromGridsTS cosA sinA grid grid none).fillVolume = 0 ∧
    (calculateFromGridsTS cosA sinA grid grid none).netVolume = 0 := by
  unfold calculateFromGridsTS
  dsimp only
  rcases volFoldTS_same_grid grid (max grid.minX grid.minX) (max grid.minY grid.minY)
      grid.gridSize
      (⌈(min grid.maxX grid.maxX - max grid.minX grid.minX) / grid.gridSize⌉).toNat
      (allCells (⌈(min grid.maxY grid.maxY - max grid.minY grid.minY) / grid.gridSize⌉).toNat
        (⌈(min grid.maxX grid.maxX - max grid.minX grid.minX) / grid.gridSize⌉).toNat)
      ⟨0, 0, 0, List.replicate
        ((⌈(min grid.maxY grid.maxY - max grid.minY grid.minY) / grid.gridSize⌉).toNat *
          (⌈(min grid.maxX grid.maxX - max grid.minX grid.minX) / grid.gridSize⌉).toNat) 0⟩
    with ⟨h1, h2⟩
  refine ⟨h1, h2, ?_⟩
  rw [h1, h2]
  norm_num

/-- Witness for C8: a concrete 1×1 grid compared against itself yields all
three volumes zero. -/
theorem calculateFromGridsTS_identical_zero_witness :
    (calculateFromGridsTS 1 0 ⟨0, 0, 1, 1, 1, 1, 1, [5], 0, ⟨0, 0, 0⟩⟩
        ⟨0, 0, 1, 1, 1, 1, 1, [5], 0, ⟨0, 0, 0⟩⟩ none).cutVolume = 0 ∧
    (calculateFromGridsTS 1 0 ⟨0, 0, 1, 1, 1, 1, 1, [5], 0, ⟨0, 0, 0⟩⟩
        ⟨0, 0, 1, 1, 1, 1, 1, [5], 0, ⟨0, 0, 0⟩⟩ none).fillVolume = 0 ∧
    (calculateFromGridsTS 1 0 ⟨0, 0, 1, 1, 1, 1, 1, [5], 0, ⟨0, 0, 0⟩⟩
        ⟨0, 0, 1, 1, 1, 1, 1, [5], 0, ⟨0, 0, 0⟩⟩ none).netVolume = 0 :=
  calculateFromGridsTS_identical_zero 1 0 ⟨0, 0, 1, 1, 1, 1, 1, [5], 0, ⟨0, 0, 0⟩⟩
    (by norm_num)

/-! ### Evaluation helper for the height lookup -/

lemma getHeightFromLocalGrid_eval (grid : GridData) (lx ly : ℚ) (c r : ℤ)
    (hc : ⌊(lx - grid.minX) / grid.gridSize⌋ = c)
    (hr : ⌊(ly - grid.minY) / grid.gridSize⌋ = r)
    (h : 0 ≤ r ∧ r < (grid.rows : ℤ) ∧ 0 ≤ c ∧ c < (grid.cols : ℤ)) :
    getHeightFromLocalGrid grid lx ly =
      grid.heights.getD (r.toNat * grid.cols + c.toNat) 0 := by
  unfold getHeightFromLocalGrid
  rw [hc, hr, if_pos h]

/-! ### C2: no noise threshold in the volume accumulation -/

/-- C2 (amended): the live volume engine
(`src/services/VolumeCalculator.ts`, `calculateFromGrids`) applies no noise
threshold: every cell with valid heights and non-negligible area
contributes exactly `|h2 − h1| · gridSize²` to `cutVolume + fillVolume`,
even when `|h2 − h1|` is below `0.01` (the `0.01`/`0.05` thresholds exist
only in the visualizer's colour mapping). -/
theorem cellStepTS_no_noise_threshold (grid1 grid2 : GridData)
    (mnX mnY gs : ℚ) (cols : ℕ) (st : VolState) (rc : ℕ × ℕ) (h1 h2 : ℚ)
    (hh1 : h1 = getHeightFromLocalGrid grid1 (mnX + rc.2 * gs + gs / 2) (mnY + rc.1 * gs + gs / 2))
    (hh2 : h2 = getHeightFromLocalGrid grid2 (mnX + rc.2 * gs + gs / 2) (mnY + rc.1 * gs + gs / 2))
    (hA : 1 / 10000 < gs * gs) (hn1 : ND < h1) (hn2 : ND < h2)
    (hne : h1 ≠ h2) (hsmall : |h2 - h1| < 1 / 100) :
    (cellStepTS grid1 grid2 [] mnX mnY gs cols st rc).cut
      + (cellStepTS grid1 grid2 [] mnX mnY gs cols st rc).fill
      = st.cut + st.fill + |h2 - h1| * (gs * gs) := by
  subst hh1
  subst hh2
  unfold cellStepTS
  simp only [reduceIte]
  rw [if_neg (not_le.mpr hA),
    if_neg (not_or.mpr ⟨not_le.mpr hn1, not_le.mpr hn2⟩)]
  set a := getHeightFromLocalGrid grid1 (mnX + rc.2 * gs + gs / 2) (mnY + rc.1 * gs + gs / 2)
    with ha
  set b := getHeightFromLocalGrid grid2 (mnX + rc.2 * gs + gs / 2) (mnY + rc.1 * gs + gs / 2)
    with hb
  by_cases hd : b - a > 0
  · simp only [if_pos hd]
    rw [abs_of_pos hd]
    ring
  · simp only [if_neg hd]
    ring

/-- Witness for C2: two 1×1 grids whose single heights differ by
`1/200 < 0.01` still contribute `1/200 · 1` to the volumes. -/
theorem cellStepTS_no_noise_threshold_witness :
    (cellStepTS ⟨0, 0, 1, 1, 1, 1, 1, [10], 0, ⟨0, 0, 0⟩⟩
        ⟨0, 0, 1, 1, 1, 1, 1, [2001 / 200], 0, ⟨0, 0, 0⟩⟩ [] 0 0 1 1
        ⟨0, 0, 0, [0]⟩ (0, 0)).cut
      + (cellStepTS ⟨0, 0, 1, 1, 1, 1, 1, [10], 0, ⟨0, 0, 0⟩⟩
          ⟨0, 0, 1, 1, 1, 1, 1, [2001 / 200], 0, ⟨0, 0, 0⟩⟩ [] 0 0 1 1
          ⟨0, 0, 0, [0]⟩ (0, 0)).fill
      = 0 + 0 + |(2001 / 200 : ℚ) - 10| * (1 * 1) :=
  cellStepTS_no_noise_threshold _ _ 0 0 1 1 ⟨0, 0, 0, [0]⟩ (0, 0) 10 (2001 / 200)
    (by rw [getHeightFromLocalGrid_eval _ _ _ 0 0 (by norm_num [Int.floor_eq_iff])
          (by norm_num [Int.floor_eq_iff]) (by norm_num)]
        norm_num [List.getD])
    (by rw [getHeightFromLocalGrid_eval _ _ _ 0 0 (by norm_num [Int.floor_eq_iff])
          (by norm_num [Int.floor_eq_iff]) (by norm_num)]
        norm_num [List.getD])
    (by norm_num) (by norm_num [ND]) (by norm_num [ND]) (by norm_num)
    (by rw [abs_of_pos (by norm_num)]
        norm_num)

/-! ### C10: the height lookup is total and bounds-checked -/

/-- C10 (amended): `VolumeCalculator.getHeightFromLocalGrid`
(src/services/VolumeCalculator.ts) is total and bounds-checked on cell
indices: whenever the floored index falls outside `[0,rows)×[0,cols)` — in
particular for any coordinate left of or below the extent — it returns the
`NO_DATA` sentinel `-1000000` without reading the heights array; when the
index is in range the read offset `r·cols + c` is inside the array for any
grid satisfying the `heights.length = rows·cols` invariant; and a cell
where either lookup is `≤ NO_DATA` contributes nothing to `cutVolume`,
`fillVolume`, `area` or the diff map.  (A coordinate beyond `maxX`/`maxY`
may still fall in an in-range margin cell and then yields that cell's
stored height — see the counterexample.) -/
theorem getHeightFromLocalGrid_safe (grid : GridData) (lx ly : ℚ) (c r : ℤ)
    (hc : c = ⌊(lx - grid.minX) / grid.gridSize⌋)
    (hr : r = ⌊(ly - grid.minY) / grid.gridSize⌋) :
    (¬(0 ≤ r ∧ r < (grid.rows : ℤ) ∧ 0 ≤ c ∧ c < (grid.cols : ℤ)) →
        getHeightFromLocalGrid grid lx ly = -1000000)
    ∧ ((0 ≤ r ∧ r < (grid.rows : ℤ) ∧ 0 ≤ c ∧ c < (grid.cols : ℤ)) →
        grid.heights.length = grid.rows * grid.cols →
        r.toNat * grid.cols + c.toNat < grid.heights.length)
    ∧ (∀ (grid2 : GridData) (lb : List Vec2) (mnX mnY gs : ℚ) (cols : ℕ)
        (st : VolState) (rc : ℕ × ℕ),
        (getHeightFromLocalGrid grid (mnX + rc.2 * gs + gs / 2) (mnY + rc.1 * gs + gs / 2) ≤ ND ∨
         getHeightFromLocalGrid grid2 (mnX + rc.2 * gs + gs / 2) (mnY + rc.1 * gs + gs / 2) ≤ ND) →
        cellStepTS grid grid2 lb mnX mnY gs cols st rc = st) := by
  refine ⟨?_, ?_, ?_⟩
  · intro h
    unfold getHeightFromLocalGrid
    rw [← hc, ← hr, if_neg h]
  · rintro ⟨hr0, hrlt, hc0, hclt⟩ hlen
    have h1 : r.toNat < grid.rows := by omega
    have h2 : c.toNat < grid.cols := by omega
    rw [hlen]
    exact cell_index_lt h1 h2
  · intro grid2 lb mnX mnY gs cols st rc hor
    unfold cellStepTS
    dsimp only
    by_cases hA : (if lb = [] then gs * gs
        else getPolygonArea (clipPolygon
          [⟨mnX + rc.2 * gs, mnY + rc.1 * gs⟩,
           ⟨mnX + rc.2 * gs + gs, mnY + rc.1 * gs⟩,
           ⟨mnX + rc.2 * gs + gs, mnY + rc.1 * gs + gs⟩,
           ⟨mnX + rc.2 * gs, mnY + rc.1 * gs + gs⟩] lb)) ≤ 1 / 10000
    · rw [if_pos hA]
    · rw [if_neg hA, if_pos hor]

/-- Witness for C10: a coordinate left of the extent (`lx = -1`) floors to
column `-1`, is caught by the bounds check, and yields `-1000000`. -/
theorem getHeightFromLocalGrid_safe_witness :
    getHeightFromLocalGrid ⟨0, 0, 1, 1, 1, 2, 1, [5, 7], 0, ⟨0, 0, 0⟩⟩ (-1) (1 / 2) =
      -1000000 :=
  (getHeightFromLocalGrid_safe ⟨0, 0, 1, 1, 1, 2, 1, [5, 7], 0, ⟨0, 0, 0⟩⟩ (-1) (1 / 2)
      (-1) 0 (by norm_num [Int.floor_eq_iff]) (by norm_num [Int.floor_eq_iff])).1
    (by norm_num)

/-- Counterexample for C10: the same grid (extent `[0,1]×[0,1]`, but
`cols = 2`, so one margin column) queried at `lx = 3/2 > maxX` — a
coordinate outside the grid's extent — returns the stored height `7`, not
the `NO_DATA` sentinel. -/
theorem getHeightFromLocalGrid_outside_extent_counterexample :
    getHeightFromLocalGrid ⟨0, 0, 1, 1, 1, 2, 1, [5, 7], 0, ⟨0, 0, 0⟩⟩ (3 / 2) (1 / 2) = 7
    ∧ (⟨0, 0, 1, 1, 1, 2, 1, [5, 7], 0, ⟨0, 0, 0⟩⟩ : GridData).maxX < 3 / 2
    ∧ (7 : ℚ) ≠ -1000000 := by
  refine ⟨?_, by norm_num, by norm_num⟩
  rw [getHeightFromLocalGrid_eval _ _ _ 1 0 (by norm_num [Int.floor_eq_iff])
    (by norm_num [Int.floor_eq_iff]) (by norm_num)]
  norm_num [List.getD]

end CASS

namespace CASS

/-! ### C5: what hole filling may and may not modify -/

lemma interiorCells_mem {rows cols : ℕ} {rc : ℕ × ℕ}
    (h : rc ∈ interiorCells rows cols) :
    1 ≤ rc.1 ∧ rc.1 < rows - 1 ∧ 1 ≤ rc.2 ∧ rc.2 < cols - 1 := by
  simp only [interiorCells, List.mem_flatMap, List.mem_map, List.Ico.mem] at h
  obtain ⟨r, hr, c, hc, rfl⟩ := h
  exact ⟨hr.1, hr.2, hc.1, hc.2⟩

lemma fillCellP1_getD_of_ne (grid : List ℚ) (cols : ℕ) (copy : List ℚ)
    (rc : ℕ × ℕ) (idx : ℕ) (h : rc.1 * cols + rc.2 ≠ idx) :
    (fillCellP1 grid cols copy rc).getD idx 0 = copy.getD idx 0 := by
  unfold fillCellP1
  dsimp only
  split_ifs
  · rfl
  · exact getD_set_of_ne _ _ _ _ _ h
  · rfl

lemma fillCellP1_getD_of_valid (grid : List ℚ) (cols : ℕ) (copy : List ℚ)
    (rc : ℕ × ℕ) (idx : ℕ) (h : grid.getD idx 0 ≠ ND) :
    (fillCellP1 grid cols copy rc).getD idx 0 = copy.getD idx 0 := by
  by_cases e : rc.1 * cols + rc.2 = idx
  · unfold fillCellP1
    dsimp only
    rw [e, if_pos h]
  · exact fillCellP1_getD_of_ne _ _ _ _ _ e

lemma fillCellTS_getD_of_ne (grid : List ℚ) (rows cols : ℕ) (copy : List ℚ)
    (rc : ℕ × ℕ) (idx : ℕ) (h : rc.1 * cols + rc.2 ≠ idx) :
    (fillCellTS grid rows cols copy rc).getD idx 0 = copy.getD idx 0 := by
  unfold fillCellTS
  dsimp only
  split_ifs
  · rfl
  · exact getD_set_of_ne _ _ _ _ _ h
  · rfl

lemma fillCellTS_getD_of_valid (grid : List ℚ) (rows cols : ℕ) (copy : List ℚ)
    (rc : ℕ × ℕ) (idx : ℕ) (h : grid.getD idx 0 ≠ ND) :
    (fillCellTS grid rows cols copy rc).getD idx 0 = copy.getD idx 0 := by
  by_cases e : rc.1 * cols + rc.2 = idx
  · unfold fillCellTS
    dsimp only
    rw [e, if_pos h]
  · exact fillCellTS_getD_of_ne _ _ _ _ _ _ e

lemma fillPassTS_getD_valid (grid : List ℚ) (rows cols : ℕ) (copy : List ℚ)
    (idx : ℕ) (h : grid.getD idx 0 ≠ ND) :
    (fillPassTS grid rows cols copy).getD idx 0 = copy.getD idx 0 :=
  foldl_getD_preserve _ _ _ _
    (fun cp a _ => fillCellTS_getD_of_valid grid rows cols cp a idx h)

/-- C5 (amended): hole filling never modifies a cell that already holds a
valid height (both variants skip cells whose read-buffer value is not
`NO_DATA`), and in the `part_001` variant (`Gridifier.fillHoles`,
src/unnamed/part_001) border cells — row `0`, row `rows-1`, column `0` or
column `cols-1` — are additionally never modified because its loops only
visit interior cells.  (The services variant visits border cells too and
does fill border `NO_DATA` cells, see the counterexample.) -/
theorem fillHoles_frame (grid : List ℚ) (rows cols r c : ℕ)
    (hr : r < rows) (hc : c < cols) :
    ((r = 0 ∨ r = rows - 1 ∨ c = 0 ∨ c = cols - 1 ∨ grid.getD (r * cols + c) 0 ≠ ND) →
      (fillHolesP1 grid rows cols).getD (r * cols + c) 0 = grid.getD (r * cols + c) 0)
    ∧ (grid.getD (r * cols + c) 0 ≠ ND →
      (fillHolesTS grid rows cols).getD (r * cols + c) 0 = grid.getD (r * cols + c) 0) := by
  constructor
  · intro hbc
    unfold fillHolesP1
    apply foldl_getD_preserve
    intro cp a ha
    have hm := interiorCells_mem ha
    rcases hbc with h0 | h0 | h0 | h0 | hval
    · refine fillCellP1_getD_of_ne _ _ _ _ _ (fun e => ?_)
      rcases cell_index_inj (by omega) hc e with ⟨er, ec⟩
      omega
    · refine fillCellP1_getD_of_ne _ _ _ _ _ (fun e => ?_)
      rcases cell_index_inj (by omega) hc e with ⟨er, ec⟩
      omega
    · refine fillCellP1_getD_of_ne _ _ _ _ _ (fun e => ?_)
      rcases cell_index_inj (by omega) hc e with ⟨er, ec⟩
      omega
    · refine fillCellP1_getD_of_ne _ _ _ _ _ (fun e => ?_)
      rcases cell_index_inj (by omega) hc e with ⟨er, ec⟩
      omega
    · exact fillCellP1_getD_of_valid _ _ _ _ _ hval
  · intro hval
    unfold fillHolesTS
    dsimp only
    have e1 : (fillPassTS grid rows cols grid).getD (r * cols + c) 0 =
        grid.getD (r * cols + c) 0 :=
      fillPassTS_getD_valid _ _ _ _ _ hval
    have h2 : (fillPassTS grid rows cols grid).getD (r * cols + c) 0 ≠ ND := by
      rw [e1]; exact hval
    rw [fillPassTS_getD_valid _ _ _ _ _ h2, e1]

/-- Witness for C5: on the 2×2 grid `[ND, 5, 5, 5]`, the `part_001` filler
leaves the border `NO_DATA` cell `(0,0)` unchanged, and the services filler
leaves the valid cell `(0,1)` unchanged. -/
theorem fillHoles_frame_witness :
    (fillHolesP1 [ND, 5, 5, 5] 2 2).getD 0 0 = ([ND, 5, 5, 5] : List ℚ).getD 0 0
    ∧ (fillHolesTS [ND, 5, 5, 5] 2 2).getD 1 0 = ([ND, 5, 5, 5] : List ℚ).getD 1 0 :=
  ⟨(fillHoles_frame [ND, 5, 5, 5] 2 2 0 0 (by norm_num) (by norm_num)).1 (Or.inl rfl),
   (fillHoles_frame [ND, 5, 5, 5] 2 2 0 1 (by norm_num) (by norm_num)).2
     (by norm_num [List.getD, ND])⟩

end CASS

namespace CASS

/-! ### C7: the binning pass is order-independent and max-merging -/

/-- The cell (if any) that the services binning pass assigns to a vertex:
`some (r*cols + c)` when the rounded indices are in bounds, else `none`.
Specification-side companion of `popStepTS`. -/
def binTargetTS (minX minY : ℚ) (cols rows : ℕ) (gridSize : ℚ) (origin : Point3D)
    (v : Point3D) : Option ℕ :=
  let c := binIdxTS minX gridSize (v.x + origin.x)
  let r := binIdxTS minY gridSize (v.y + origin.y)
  if 0 ≤ r ∧ r < (rows : ℤ) ∧ 0 ≤ c ∧ c < (cols : ℤ) then
    some (r.toNat * cols + c.toNat)
  else none

/-- The `z` contributions binned to cell `idx`, in vertex order. -/
def cellZsTS (minX minY : ℚ) (cols rows : ℕ) (gridSize : ℚ) (origin : Point3D)
    (idx : ℕ) (l : List Point3D) : List ℚ :=
  l.filterMap (fun v =>
    match binTargetTS minX minY cols rows gridSize origin v with
    | some j => if j = idx then some (v.z + origin.z) else none
    | none => none)

lemma popStepTS_eq_setMax (minX minY : ℚ) (cols rows : ℕ) (gridSize : ℚ)
    (origin : Point3D) (grid : List ℚ) (v : Point3D) :
    popStepTS minX minY cols rows gridSize origin grid v =
      match binTargetTS minX minY cols rows gridSize origin v with
      | none => grid
      | some j => grid.set j (max (grid.getD j 0) (v.z + origin.z)) := by
  unfold popStepTS binTargetTS
  dsimp only
  split_ifs with h hz
  · dsimp only
    rw [max_eq_right (le_of_lt hz)]
  · dsimp only
    rw [max_eq_left (not_lt.mp hz)]
    exact (set_getD_self grid _).symm
  · rfl

lemma popStepTS_length (minX minY : ℚ) (cols rows : ℕ) (gridSize : ℚ)
    (origin : Point3D) (grid : List ℚ) (v : Point3D) :
    (popStepTS minX minY cols rows gridSize origin grid v).length = grid.length := by
  unfold popStepTS
  dsimp only
  split_ifs
  · exact List.length_set grid _ _
  · rfl
  · rfl

lemma max_right_swap (o a b : ℚ) : max (max o a) b = max (max o b) a := by
  rw [max_assoc, max_assoc, max_comm a b]

lemma popStepTS_comm (minX minY : ℚ) (cols rows : ℕ) (gridSize : ℚ)
    (origin : Point3D) (grid : List ℚ) (v w : Point3D) :
    popStepTS minX minY cols rows gridSize origin
        (popStepTS minX minY cols rows gridSize origin grid v) w
      = popStepTS minX minY cols rows gridSize origin
          (popStepTS minX minY cols rows gridSize origin grid w) v := by
  simp only [popStepTS_eq_setMax]
  cases hv : binTargetTS minX minY cols rows gridSize origin v with
  | none =>
    cases hw : binTargetTS minX minY cols rows gridSize origin w with
    | none => rfl
    | some k => rfl
  | some j =>
    cases hw : binTargetTS minX minY cols rows gridSize origin w with
    | none => rfl
    | some k =>
      dsimp only
      by_cases hjk : j = k
      · subst hjk
        by_cases hlen : j < grid.length
        · rw [getD_set_self_of_lt _ _ _ _ hlen, getD_set_self_of_lt _ _ _ _ hlen,
            List.set_set, List.set_set, max_right_swap]
        · have hle : grid.length ≤ j := not_lt.mp hlen
          simp only [List.set_eq_of_length_le hle]
      · rw [getD_set_of_ne _ _ _ _ _ hjk, getD_set_of_ne _ _ _ _ _ (Ne.symm hjk),
          List.set_comm _ _ _ hjk]

lemma populateGridTS_getD (minX minY : ℚ) (cols rows : ℕ) (gridSize : ℚ)
    (origin : Point3D) :
    ∀ (l : List Point3D) (grid : List ℚ) (idx : ℕ), idx < grid.length →
      (populateGridTS minX minY cols rows gridSize origin grid l).getD idx 0
        = (cellZsTS minX minY cols rows gridSize origin idx l).foldl max
            (grid.getD idx 0) := by
  intro l
  induction l with
  | nil => intro grid idx h; rfl
  | cons v t ih =>
    intro grid idx h
    have hstep : populateGridTS minX minY cols rows gridSize origin grid (v :: t)
        = populateGridTS minX minY cols rows gridSize origin
            (popStepTS minX minY cols rows gridSize origin grid v) t := rfl
    rw [hstep, ih _ idx (by rw [popStepTS_length]; exact h)]
    cases hv : binTargetTS minX minY cols rows gridSize origin v with
    | none =>
      have hz : cellZsTS minX minY cols rows gridSize origin idx (v :: t)
          = cellZsTS minX minY cols rows gridSize origin idx t := by
        unfold cellZsTS
        rw [List.filterMap_cons, hv]
      have hg : popStepTS minX minY cols rows gridSize origin grid v = grid := by
        rw [popStepTS_eq_setMax, hv]
      rw [hz, hg]
    | some j =>
      by_cases hj : j = idx
      · subst hj
        have hz : cellZsTS minX minY cols rows gridSize origin j (v :: t)
            = (v.z + origin.z) :: cellZsTS minX minY cols rows gridSize origin j t := by
          simp [cellZsTS, List.filterMap_cons, hv]
        have hg : (popStepTS minX minY cols rows gridSize origin grid v).getD j 0
            = max (grid.getD j 0) (v.z + origin.z) := by
          rw [popStepTS_eq_setMax, hv]
          dsimp only
          exact getD_set_self_of_lt _ _ _ _ h
        rw [hz, List.foldl_cons, hg]
      · have hz : cellZsTS minX minY cols rows gridSize origin idx (v :: t)
            = cellZsTS minX minY cols rows gridSize origin idx t := by
          simp [cellZsTS, List.filterMap_cons, hv, hj]
        have hg : (popStepTS minX minY cols rows gridSize origin grid v).getD idx 0
            = grid.getD idx 0 := by
          rw [popStepTS_eq_setMax, hv]
          dsimp only
          exact getD_set_of_ne _ _ _ _ _ hj
        rw [hz, hg]

/-- C7: the services binning pass (`Gridifier.streamPopulateGrid`,
src/services/Gridifier.ts) is order-independent and max-merging: any two
processing orders of the same vertex multiset produce identical heights
arrays (so re-rasterizing the same vertex set is idempotent), and every
cell of the result holds the maximum of its initial value and all `z`
values binned to that cell. -/
theorem populateGridTS_perm_max (minX minY : ℚ) (cols rows : ℕ) (gridSize : ℚ)
    (origin : Point3D) (grid : List ℚ) (l₁ l₂ : List Point3D) (hp : l₁.Perm l₂) :
    populateGridTS minX minY cols rows gridSize origin grid l₁
      = populateGridTS minX minY cols rows gridSize origin grid l₂
    ∧ ∀ idx : ℕ, idx < grid.length →
        (populateGridTS minX minY cols rows gridSize origin grid l₁).getD idx 0
          = (cellZsTS minX minY cols rows gridSize origin idx l₁).foldl max
              (grid.getD idx 0) := by
  constructor
  · unfold populateGridTS
    exact hp.foldl_eq'
      (fun x _ y _ g => popStepTS_comm minX minY cols rows gridSize origin g x y) grid
  · exact fun idx h => populateGridTS_getD minX minY cols rows gridSize origin l₁ grid idx h

/-- Witness for C7: the two orders of two vertices binned to the single
cell of a 1×1 grid produce the same heights array, and the populated cell
holds the fold of `max` over its contributions. -/
theorem populateGridTS_perm_max_witness :
    populateGridTS 0 0 1 1 1 ⟨0, 0, 0⟩ [ND] [⟨0, 0, 1⟩, ⟨0, 0, 2⟩]
      = populateGridTS 0 0 1 1 1 ⟨0, 0, 0⟩ [ND] [⟨0, 0, 2⟩, ⟨0, 0, 1⟩]
    ∧ (populateGridTS 0 0 1 1 1 ⟨0, 0, 0⟩ [ND] [⟨0, 0, 1⟩, ⟨0, 0, 2⟩]).getD 0 0
        = (cellZsTS 0 0 1 1 1 ⟨0, 0, 0⟩ 0 [⟨0, 0, 1⟩, ⟨0, 0, 2⟩]).foldl max
            (([ND] : List ℚ).getD 0 0) := by
  have h := populateGridTS_perm_max 0 0 1 1 1 ⟨0, 0, 0⟩ [ND]
    ([⟨0, 0, 1⟩, ⟨0, 0, 2⟩] : List Point3D) ([⟨0, 0, 2⟩, ⟨0, 0, 1⟩] : List Point3D)
    (List.Perm.swap (⟨0, 0, 2⟩ : Point3D) (⟨0, 0, 1⟩ : Point3D) [])
  exact ⟨h.1, h.2 0 (by norm_num)⟩

end CASS

namespace CASS

/-! ### C4: grid dimensions versus the ceil formula -/

/-- C4 (amended): every successful run of
`Gridifier.processFoldersToGrid` (src/services/Gridifier.ts) returns
`cols = ceil((maxX-minX)/gridSize) + 1` and
`rows = ceil((maxY-minY)/gridSize) + 1`, where `minX..maxY` is the pass-1
extent (stored unchanged in the result) — one more than the spec's
`ceil((maxX-minX)/gridSize)` formula (the `part_001` variant adds 2). -/
theorem processFoldersToGridTS_dims (files : List (List Point3D))
    (origin : Point3D) (gridSize : ℚ) (gd : GridData)
    (h : processFoldersToGridTS files origin gridSize = .ok gd) :
    gd.cols = (⌈(gd.maxX - gd.minX) / gridSize⌉ + 1).toNat ∧
    gd.rows = (⌈(gd.maxY - gd.minY) / gridSize⌉ + 1).toNat := by
  unfold processFoldersToGridTS at h
  cases hb : scanBounds origin files with
  | none =>
    rw [hb] at h
    simp at h
  | some b =>
    rw [hb] at h
    dsimp only at h
    split_ifs at h with hbig
    simp only [Except.ok.injEq] at h
    subst h
    exact ⟨rfl, rfl⟩

lemma processGridTS_eval_single :
    processFoldersToGridTS [[⟨0, 0, 7⟩]] ⟨0, 0, 0⟩ 1
      = .ok ⟨0, 0, 0, 0, 1, 1, 1, [7], 0, ⟨0, 0, 0⟩⟩ := by
  have hb : scanBounds ⟨0, 0, 0⟩ [[⟨0, 0, 7⟩]] = some ⟨0, 0, 0, 0⟩ := by
    norm_num [scanBounds, extendBounds]
  have hdim : (⌈((0 : ℚ) - 0) / 1⌉ + 1).toNat = 1 := by norm_num
  have hrep : List.replicate (1 * 1) ND = [ND] := by norm_num
  have hpop : populateGridTS 0 0 1 1 1 ⟨0, 0, 0⟩ [ND] [⟨0, 0, 7⟩] = [7] := by
    unfold populateGridTS popStepTS binIdxTS
    norm_num [round_eq, Int.floor_eq_iff, ND, List.getD]
  have hcells : allCells 1 1 = [(0, 0)] := by decide
  have hfill : fillHolesTS [7] 1 1 = [7] := by
    unfold fillHolesTS fillPassTS fillCellTS
    rw [hcells]
    norm_num [List.getD, ND]
  unfold processFoldersToGridTS
  rw [hb]
  dsimp only
  rw [hdim]
  norm_num [hrep, hpop, hfill]

/-- Witness for C4: the single-vertex rasterization above satisfies the
`ceil + 1` dimension formulas. -/
theorem processFoldersToGridTS_dims_witness :
    (⟨0, 0, 0, 0, 1, 1, 1, [7], 0, ⟨0, 0, 0⟩⟩ : GridData).cols
      = (⌈(((⟨0, 0, 0, 0, 1, 1, 1, [7], 0, ⟨0, 0, 0⟩⟩ : GridData).maxX
          - (⟨0, 0, 0, 0, 1, 1, 1, [7], 0, ⟨0, 0, 0⟩⟩ : GridData).minX) / 1)⌉ + 1).toNat
    ∧ (⟨0, 0, 0, 0, 1, 1, 1, [7], 0, ⟨0, 0, 0⟩⟩ : GridData).rows
      = (⌈(((⟨0, 0, 0, 0, 1, 1, 1, [7], 0, ⟨0, 0, 0⟩⟩ : GridData).maxY
          - (⟨0, 0, 0, 0, 1, 1, 1, [7], 0, ⟨0, 0, 0⟩⟩ : GridData).minY) / 1)⌉ + 1).toNat :=
  processFoldersToGridTS_dims [[⟨0, 0, 7⟩]] ⟨0, 0, 0⟩ 1
    ⟨0, 0, 0, 0, 1, 1, 1, [7], 0, ⟨0, 0, 0⟩⟩ processGridTS_eval_single

/-- Counterexample for C4: the same successful run returns `cols = 1`,
while the claim's formula `ceil((maxX-minX)/gridSize)` gives `0`. -/
theorem processFoldersToGridTS_dims_counterexample :
    processFoldersToGridTS [[⟨0, 0, 7⟩]] ⟨0, 0, 0⟩ 1
      = .ok ⟨0, 0, 0, 0, 1, 1, 1, [7], 0, ⟨0, 0, 0⟩⟩
    ∧ (⟨0, 0, 0, 0, 1, 1, 1, [7], 0, ⟨0, 0, 0⟩⟩ : GridData).cols
        ≠ (⌈(((⟨0, 0, 0, 0, 1, 1, 1, [7], 0, ⟨0, 0, 0⟩⟩ : GridData).maxX
            - (⟨0, 0, 0, 0, 1, 1, 1, [7], 0, ⟨0, 0, 0⟩⟩ : GridData).minX) / 1)⌉).toNat := by
  refine ⟨processGridTS_eval_single, ?_⟩
  norm_num

end CASS

namespace CASS

/-! ### Counterexamples on the live volume engine and hole filler -/

/-- Counterexample for C1: the live engine
(`VolumeCalculator.calculateFromGrids`, src/services/VolumeCalculator.ts)
performs no overlap check: for two grids whose extents only touch
(`[0,1]×[0,1]` and `[1,2]×[0,1]`, so `maxX ≤ minX` after intersecting), it
does not fail but returns a `VolumeResult` (with an empty, zero-area
overlap). -/
theorem calculateFromGridsTS_no_overlap_check_counterexample :
    calculateFromGridsTS 1 0 ⟨0, 0, 1, 1, 1, 1, 1, [5], 0, ⟨0, 0, 0⟩⟩
        ⟨1, 0, 2, 1, 1, 1, 1, [5], 0, ⟨0, 0, 0⟩⟩ none
      = ⟨0, 0, 0, 0, 1, ⟨1, 0, 1, 1, 1, 0, []⟩⟩
    ∧ min (⟨0, 0, 1, 1, 1, 1, 1, [5], 0, ⟨0, 0, 0⟩⟩ : GridData).maxX
        (⟨1, 0, 2, 1, 1, 1, 1, [5], 0, ⟨0, 0, 0⟩⟩ : GridData).maxX
      ≤ max (⟨0, 0, 1, 1, 1, 1, 1, [5], 0, ⟨0, 0, 0⟩⟩ : GridData).minX
          (⟨1, 0, 2, 1, 1, 1, 1, [5], 0, ⟨0, 0, 0⟩⟩ : GridData).minX := by
  constructor
  · have hcols : (⌈((min (1 : ℚ) 2) - (max (0 : ℚ) 1)) / 1⌉).toNat = 0 := by
      norm_num [min_def, max_def]
    have hrows : (⌈((min (1 : ℚ) 1) - (max (0 : ℚ) 0)) / 1⌉).toNat = 1 := by
      norm_num [min_def, max_def]
    have hcells : allCells 1 0 = [] := by decide
    unfold calculateFromGridsTS
    dsimp only
    rw [hcols, hrows, hcells]
    norm_num [min_def, max_def]
  · norm_num [min_def, max_def]

/-- Counterexample for C2: two 1×1 grids with heights `10` and
`2001/200 = 10.005` — a diff of `1/200 = 0.005`, below every claimed noise
threshold — still produce `fillVolume = 1/200 ≠ 0` in the live engine. -/
theorem calculateFromGridsTS_small_diff_counterexample :
    (calculateFromGridsTS 1 0 ⟨0, 0, 1, 1, 1, 1, 1, [10], 0, ⟨0, 0, 0⟩⟩
        ⟨0, 0, 1, 1, 1, 1, 1, [2001 / 200], 0, ⟨0, 0, 0⟩⟩ none).fillVolume = 1 / 200
    ∧ |(2001 / 200 : ℚ) - 10| < 1 / 100 ∧ (1 / 200 : ℚ) ≠ 0 := by
  refine ⟨?_, by rw [abs_of_pos (by norm_num)]; norm_num, by norm_num⟩
  have hcols : (⌈((min (1 : ℚ) 1) - (max (0 : ℚ) 0)) / 1⌉).toNat = 1 := by
    norm_num [min_def, max_def]
  have hcells : allCells 1 1 = [(0, 0)] := by decide
  have hh1 : getHeightFromLocalGrid ⟨0, 0, 1, 1, 1, 1, 1, [10], 0, ⟨0, 0, 0⟩⟩
      (max (0 : ℚ) 0 + (0 : ℕ) * 1 + 1 / 2) (max (0 : ℚ) 0 + (0 : ℕ) * 1 + 1 / 2) = 10 := by
    rw [getHeightFromLocalGrid_eval _ _ _ 0 0 (by norm_num [Int.floor_eq_iff])
      (by norm_num [Int.floor_eq_iff]) (by norm_num)]
    norm_num [List.getD]
  have hh2 : getHeightFromLocalGrid ⟨0, 0, 1, 1, 1, 1, 1, [2001 / 200], 0, ⟨0, 0, 0⟩⟩
      (max (0 : ℚ) 0 + (0 : ℕ) * 1 + 1 / 2) (max (0 : ℚ) 0 + (0 : ℕ) * 1 + 1 / 2) = 2001 / 200 := by
    rw [getHeightFromLocalGrid_eval _ _ _ 0 0 (by norm_num [Int.floor_eq_iff])
      (by norm_num [Int.floor_eq_iff]) (by norm_num)]
    norm_num [List.getD]
  unfold calculateFromGridsTS
  dsimp only
  rw [hcols, hcells, List.foldl_cons, List.foldl_nil]
  unfold cellStepTS
  dsimp only
  rw [hh1, hh2]
  norm_num [ND]

/-- Counterexample for C5: the live hole filler (`Gridifier.fillHoles`,
src/services/Gridifier.ts) does modify border cells — on the 2×2 grid
`[ND, 5, 5, 5]` the `NO_DATA` cell `(0,0)` (row 0 and column 0) has three
valid neighbours and is filled with their average `5`. -/
theorem fillHolesTS_border_filled_counterexample :
    fillHolesTS [ND, 5, 5, 5] 2 2 = [5, 5, 5, 5] ∧ ND ≠ (5 : ℚ) := by
  constructor
  · have hcells : allCells 2 2 = [(0, 0), (0, 1), (1, 0), (1, 1)] := by decide
    unfold fillHolesTS fillPassTS
    rw [hcells]
    norm_num [fillCellTS, neighborSumTS, offsets8, ND, List.getD]
  · norm_num [ND]

end CASS
